import Mathlib

/-!
Verification of the runner-manager service (src/app/runner-manager/app.py)
against its natural-language specification.

Python strings are modelled as lists of characters (PyStr), byte strings as
lists of naturals (Bytes).  External collaborators (GCP compute, Cloud Tasks,
the GitHub API, JSON parsing) are modelled as oracle arguments of type
Except String α: an error value stands for a raised exception, an ok value
for a successful call result.  Each HTTP handler returns its response (or the
HTTPException it raises) together with the list of collaborator calls it made.
-/

set_option autoImplicit false

namespace RunnerManager

abbrev PyStr := List Char
abbrev Bytes := List Nat

/-- Concatenation of a list of lists (used for byte/char flattening). -/
def listJoin {α : Type} : List (List α) → List α
  | [] => []
  | x :: xs => x ++ listJoin xs

theorem mem_listJoin {α : Type} {a : α} :
    ∀ {ls : List (List α)}, a ∈ listJoin ls → ∃ l ∈ ls, a ∈ l := by
  intro ls
  induction ls with
  | nil => intro h; cases h
  | cons x xs ih =>
    intro h
    rcases List.mem_append.mp h with h | h
    · exact ⟨x, List.mem_cons_self x xs, h⟩
    · rcases ih h with ⟨l, hl, ha⟩
      exact ⟨l, List.mem_cons_of_mem x hl, ha⟩

theorem getD_eq_or_mem {α : Type} :
    ∀ (l : List α) (n : Nat) (d : α), l.getD n d = d ∨ l.getD n d ∈ l := by
  intro l
  induction l with
  | nil => intro n d; left; rfl
  | cons a t ih =>
    intro n d
    cases n with
    | zero => right; simp [List.getD]
    | succ m =>
      rcases ih m d with h | h
      · left; simpa [List.getD] using h
      · right; simp only [List.getD] at h ⊢
        simpa using Or.inr h

/-! ### Modelling str.split(sep) from Python -/

/-- Splitting a character list at every occurrence of a separator, with the
semantics of Python str.split(sep): the empty string yields one empty part,
and n separators yield n+1 parts. -/
def pySplit (sep : Char) : List Char → List (List Char)
  | [] => [[]]
  | c :: cs =>
    if c = sep then [] :: pySplit sep cs
    else
      match pySplit sep cs with
      | [] => [[c]]
      | p :: ps => (c :: p) :: ps

theorem pySplit_ne_nil (sep : Char) : ∀ (l : List Char), pySplit sep l ≠ [] := by
  intro l
  cases l with
  | nil => simp [pySplit]
  | cons c cs =>
    simp only [pySplit]
    by_cases h : c = sep
    · simp [h]
    · simp only [h, if_false]
      cases pySplit sep cs <;> simp

theorem pySplit_of_not_mem (sep : Char) :
    ∀ (l : List Char), sep ∉ l → pySplit sep l = [l] := by
  intro l
  induction l with
  | nil => intro _; rfl
  | cons c cs ih =>
    intro h
    have hc : c ≠ sep := fun e => h (e ▸ List.mem_cons_self c cs)
    have hcs : sep ∉ cs := fun e => h (List.mem_cons_of_mem c e)
    simp [pySplit, hc, ih hcs]

theorem pySplit_append (sep : Char) :
    ∀ (a b : List Char), sep ∉ a → pySplit sep (a ++ sep :: b) = a :: pySplit sep b := by
  intro a
  induction a with
  | nil => intro b _; simp [pySplit]
  | cons c cs ih =>
    intro b h
    have hc : c ≠ sep := fun e => h (e ▸ List.mem_cons_self c cs)
    have hcs : sep ∉ cs := fun e => h (List.mem_cons_of_mem c e)
    have := ih b hcs
    simp only [List.cons_append, pySplit, hc, if_false, List.append_eq, this]

/-- Joining parts back with the separator; left inverse of pySplit. -/
def joinSep (sep : Char) : List (List Char) → List Char
  | [] => []
  | [x] => x
  | x :: xs => x ++ sep :: joinSep sep xs

theorem joinSep_pySplit (sep : Char) :
    ∀ (l : List Char), joinSep sep (pySplit sep l) = l := by
  intro l
  induction l with
  | nil => rfl
  | cons c cs ih =>
    by_cases h : c = sep
    · subst h
      simp only [pySplit, if_pos rfl]
      cases hp : pySplit c cs with
      | nil => exact absurd hp (pySplit_ne_nil c cs)
      | cons p ps =>
        rw [hp] at ih
        simp [joinSep, ih]
    · simp only [pySplit, h, if_false]
      cases hp : pySplit sep cs with
      | nil => exact absurd hp (pySplit_ne_nil sep cs)
      | cons p ps =>
        rw [hp] at ih
        cases ps with
        | nil => simp_all [joinSep]
        | cons q qs => simp_all [joinSep]

theorem not_mem_of_mem_pySplit (sep : Char) :
    ∀ (l : List Char) (p : List Char), p ∈ pySplit sep l → sep ∉ p := by
  intro l
  induction l with
  | nil =>
    intro p hp
    simp only [pySplit, List.mem_singleton] at hp
    simp [hp]
  | cons c cs ih =>
    intro p hp
    by_cases h : c = sep
    · subst h
      simp only [pySplit, if_pos rfl] at hp
      cases List.mem_cons.mp hp with
      | inl e => subst e; simp
      | inr hp2 => exact ih p hp2
    · simp only [pySplit, h, if_false] at hp
      cases hq : pySplit sep cs with
      | nil => exact absurd hq (pySplit_ne_nil sep cs)
      | cons q qs =>
        rw [hq] at hp
        rcases List.mem_cons.mp hp with rfl | hp
        · intro hm
          rcases List.mem_cons.mp hm with e | hm
          · exact h e.symm
          · exact ih q (hq ▸ List.mem_cons_self q qs) hm
        · exact ih p (hq ▸ List.mem_cons_of_mem q hp)

/-! ### SHA-256 and HMAC (model of hashlib.sha256 and hmac.new(...).hexdigest()) -/

/-- Modulus for 32-bit words. -/
def M32 : Nat := 4294967296

/-- Right rotation of a 32-bit word. -/
def rotr (n x : Nat) : Nat := ((x >>> n) ||| (x <<< (32 - n))) % M32

/-- Initial SHA-256 hash state (decimal rendering of the standard words). -/
def sha256H0 : List Nat :=
  [1779033703, 3144134277, 1013904242, 2773480762,
   1359893119, 2600822924, 528734635, 1541459225]

/-- SHA-256 round constants (decimal rendering of the standard words). -/
def sha256K : List Nat :=
  [1116352408, 1899447441, 3049323471, 3921009573, 961987163,
   1508970993, 2453635748, 2870763221, 3624381080, 310598401,
   607225278, 1426881987, 1925078388, 2162078206, 2614888103,
   3248222580, 3835390401, 4022224774, 264347078, 604807628,
   770255983, 1249150122, 1555081692, 1996064986, 2554220882,
   2821834349, 2952996808, 3210313671, 3336571891, 3584528711,
   113926993, 338241895, 666307205, 773529912, 1294757372,
   1396182291, 1695183700, 1986661051, 2177026350, 2456956037,
   2730485921, 2820302411, 3259730800, 3345764771, 3516065817,
   3600352804, 4094571909, 275423344, 430227734, 506948616,
   659060556, 883997877, 958139571, 1322822218, 1537002063,
   1747873779, 1955562222, 2024104815, 2227730452, 2361852424,
   2428436474, 2756734187, 3204031479, 3329325298]

/-- Big-endian 8-byte encoding of a natural (the length field of the padding). -/
def be64 (n : Nat) : List Nat :=
  [n >>> 56 % 256, n >>> 48 % 256, n >>> 40 % 256, n >>> 32 % 256,
   n >>> 24 % 256, n >>> 16 % 256, n >>> 8 % 256, n % 256]

/-- Merkle-Damgard padding appended to a message of the given byte length. -/
def sha256Pad (len : Nat) : List Nat :=
  128 :: List.replicate ((119 - len % 64) % 64) 0 ++ be64 (8 * len)

/-- Grouping of a byte list into big-endian 32-bit words. -/
def bytesToWords : List Nat → List Nat
  | b0 :: b1 :: b2 :: b3 :: rest =>
    (((b0 * 256 + b1) * 256 + b2) * 256 + b3) :: bytesToWords rest
  | _ => []

/-- Big-endian byte decomposition of a 32-bit word. -/
def wordBytes (w : Nat) : List Nat :=
  [w >>> 24 % 256, w >>> 16 % 256, w >>> 8 % 256, w % 256]

/-- Extension step of the SHA-256 message schedule. -/
def scheduleStep (w : List Nat) : List Nat :=
  let n := w.length
  let w15 := w.getD (n - 15) 0
  let w2 := w.getD (n - 2) 0
  let s0 := rotr 7 w15 ^^^ rotr 18 w15 ^^^ (w15 >>> 3)
  let s1 := rotr 17 w2 ^^^ rotr 19 w2 ^^^ (w2 >>> 10)
  w ++ [(w.getD (n - 16) 0 + s0 + w.getD (n - 7) 0 + s1) % M32]

/-- Message schedule of one 64-byte block: sixteen words extended to sixty-four. -/
def sha256Schedule (block : List Nat) : List Nat :=
  (List.range 48).foldl (fun w _ => scheduleStep w) (bytesToWords block)

/-- One round of the SHA-256 compression function on the eight working words. -/
def compressRound (w : List Nat) (s : List Nat) (i : Nat) : List Nat :=
  let a := s.getD 0 0
  let b := s.getD 1 0
  let c := s.getD 2 0
  let d := s.getD 3 0
  let e := s.getD 4 0
  let f := s.getD 5 0
  let g := s.getD 6 0
  let h := s.getD 7 0
  let s1 := rotr 6 e ^^^ rotr 11 e ^^^ rotr 25 e
  let ch := (e &&& f) ^^^ ((e ^^^ (M32 - 1)) &&& g)
  let temp1 := (h + s1 + ch + sha256K.getD i 0 + w.getD i 0) % M32
  let s0 := rotr 2 a ^^^ rotr 13 a ^^^ rotr 22 a
  let maj := (a &&& b) ^^^ (a &&& c) ^^^ (b &&& c)
  let temp2 := (s0 + maj) % M32
  [(temp1 + temp2) % M32, a, b, c, (d + temp1) % M32, e, f, g]

/-- Compression of one 64-byte block into the running hash state. -/
def sha256Compress (state : List Nat) (block : List Nat) : List Nat :=
  let w := sha256Schedule block
  let out := (List.range 64).foldl (compressRound w) state
  List.zipWith (fun x y => (x + y) % M32) state out

/-- Splitting of a byte list into 64-byte blocks (fuel-indexed recursion; the
fuel equals the list length, which strictly bounds the number of blocks). -/
def chunks64 (fuel : Nat) (l : List Nat) : List (List Nat) :=
  match fuel with
  | 0 => []
  | fuel + 1 => if l = [] then [] else l.take 64 :: chunks64 fuel (l.drop 64)

/-- SHA-256 digest (32 bytes) of a byte message. -/
def sha256 (msg : List Nat) : List Nat :=
  let padded := msg ++ sha256Pad msg.length
  let final := (chunks64 padded.length padded).foldl sha256Compress sha256H0
  listJoin (final.map wordBytes)

/-- HMAC-SHA256 (model of hmac.new(key, msg, hashlib.sha256).digest()). -/
def hmacSha256 (key msg : List Nat) : List Nat :=
  let k0 := if 64 < key.length then sha256 key else key
  let k := k0 ++ List.replicate (64 - k0.length) 0
  let ipadded := k.map (fun b => b ^^^ 54)
  let opadded := k.map (fun b => b ^^^ 92)
  sha256 (opadded ++ sha256 (ipadded ++ msg))

/-- UTF-8 encoding of one character (model of Python str.encode()). -/
def encodeChar (c : Char) : List Nat :=
  let n := c.toNat
  if n < 128 then [n]
  else if n < 2048 then [192 + n / 64, 128 + n % 64]
  else if n < 65536 then [224 + n / 4096, 128 + n / 64 % 64, 128 + n % 64]
  else [240 + n / 262144, 128 + n / 4096 % 64, 128 + n / 64 % 64, 128 + n % 64]

/-- UTF-8 encoding of a Python string. -/
def encodeUtf8 (s : PyStr) : Bytes := listJoin (s.map encodeChar)

/-- Lowercase hexadecimal digit characters. -/
def hexDigits : List Char := "0123456789abcdef".toList

/-- Hexadecimal digit character of a value below sixteen. -/
def hexChar (n : Nat) : Char := hexDigits.getD n '0'

/-- Lowercase hex encoding of a byte list (model of .hexdigest()). -/
def hexOfBytes (l : Bytes) : PyStr :=
  listJoin (l.map (fun b => [hexChar (b / 16 % 16), hexChar (b % 16)]))

/-- Hex digest of the HMAC-SHA256 of a payload under a secret, as the Python
code computes it in verify_github_signature. -/
def hmacHexStr (secret : PyStr) (payload : Bytes) : PyStr :=
  hexOfBytes (hmacSha256 (encodeUtf8 secret) payload)

theorem hexChar_ne_eqsign (n : Nat) : hexChar n ≠ '=' := by
  have hall : ∀ x ∈ hexDigits, x ≠ '=' := by decide
  rcases getD_eq_or_mem hexDigits n '0' with h | h
  · rw [hexChar, h]; decide
  · exact hall _ h

theorem eqsign_not_mem_hexOfBytes (l : Bytes) : '=' ∉ hexOfBytes l := by
  intro hmem
  rcases mem_listJoin hmem with ⟨pair, hpair, hc⟩
  rcases List.mem_map.mp hpair with ⟨b, _, rfl⟩
  rcases List.mem_cons.mp hc with e | hc
  · exact hexChar_ne_eqsign (b / 16 % 16) e.symm
  · rcases List.mem_cons.mp hc with e | hc
    · exact hexChar_ne_eqsign (b % 16) e.symm
    · cases hc

/-! ### verify_github_signature -/

/-- ASCII test on a Python string (CPython's PyUnicode_IS_ASCII). -/
def isAscii (s : PyStr) : Bool := s.all (fun c => c.toNat < 128)

/-- Message of the TypeError that hmac.compare_digest raises when a str
operand contains a non-ASCII character. -/
def compareTypeErrorMsg : String :=
  "comparing strings with non-ASCII characters is not supported"

/-- Model of hmac.compare_digest on str arguments (timing is irrelevant to a
functional model).  CPython accepts only ASCII str operands and raises
TypeError when either side contains a non-ASCII character, before any
comparison happens; the raise condition is symmetric in the two operands, so
the order in which the model tests them does not matter. -/
def compare_digest (a b : PyStr) : Except String Bool :=
  if !(isAscii b) || !(isAscii a) then .error compareTypeErrorMsg
  else .ok (a == b)

/-- Model of verify_github_signature from app.py.  The configured secret
RUNNER_MANAGER_SECRET is passed explicitly; a missing header is the empty
string (Python treats None and the empty string identically here).  An error
value is an exception escaping the function: the only try in the source
guards the split, so the TypeError of compare_digest propagates to the
caller. -/
def verify_github_signature (secret : PyStr) (payload : Bytes)
    (signature_header : PyStr) : Except String Bool :=
  if signature_header = [] then .ok false
  else if secret = [] then .ok false
  else
    match pySplit '=' signature_header with
    | [hash_algorithm, signature] =>
      if hash_algorithm ≠ "sha256".toList then .ok false
      else compare_digest (hmacHexStr secret payload) signature
    | _ => .ok false

/-- Header value GitHub sends for a payload signed with the given secret. -/
def goodHeader (secret : PyStr) (payload : Bytes) : PyStr :=
  "sha256".toList ++ '=' :: hmacHexStr secret payload

theorem goodHeader_ne_nil (secret : PyStr) (payload : Bytes) :
    goodHeader secret payload ≠ [] := by
  have hs : "sha256".toList = ['s', 'h', 'a', '2', '5', '6'] := rfl
  simp [goodHeader, hs]

theorem hexChar_ascii (n : Nat) : (hexChar n).toNat < 128 := by
  have hall : ∀ x ∈ hexDigits, x.toNat < 128 := by decide
  rcases getD_eq_or_mem hexDigits n '0' with h | h
  · rw [hexChar, h]; decide
  · exact hall _ h

theorem isAscii_hexOfBytes (l : Bytes) : isAscii (hexOfBytes l) = true := by
  rw [isAscii, List.all_eq_true]
  intro c hc
  rcases mem_listJoin hc with ⟨pair, hpair, hcc⟩
  rcases List.mem_map.mp hpair with ⟨b, _, rfl⟩
  rcases List.mem_cons.mp hcc with e | hcc
  · subst e; simpa using hexChar_ascii (b / 16 % 16)
  · rcases List.mem_cons.mp hcc with e | hcc
    · subst e; simpa using hexChar_ascii (b % 16)
    · cases hcc

theorem isAscii_hmacHexStr (secret : PyStr) (payload : Bytes) :
    isAscii (hmacHexStr secret payload) = true := by
  rw [hmacHexStr]; exact isAscii_hexOfBytes _

theorem eqsign_not_mem_hmacHexStr (secret : PyStr) (payload : Bytes) :
    '=' ∉ hmacHexStr secret payload := by
  rw [hmacHexStr]; exact eqsign_not_mem_hexOfBytes _

theorem compare_digest_hex (secret : PyStr) (payload : Bytes) (s : PyStr)
    (hs : isAscii s = true) :
    compare_digest (hmacHexStr secret payload) s
      = .ok (hmacHexStr secret payload == s) := by
  rw [compare_digest, hs, isAscii_hmacHexStr]
  rfl

theorem verify_nil_secret (payload : Bytes) (header : PyStr) :
    verify_github_signature [] payload header = .ok false := by
  cases header with
  | nil => rfl
  | cons c cs =>
    rw [verify_github_signature, if_neg (by simp), if_pos rfl]

theorem verify_sha256_header (secret : PyStr) (payload : Bytes)
    (signature : PyStr) (h2 : secret ≠ []) (hs : '=' ∉ signature) :
    verify_github_signature secret payload
        ("sha256".toList ++ '=' :: signature)
      = compare_digest (hmacHexStr secret payload) signature := by
  have hnm : '=' ∉ "sha256".toList := by decide
  have hnil : ("sha256".toList ++ '=' :: signature) ≠ [] := by
    have hsx : "sha256".toList = ['s', 'h', 'a', '2', '5', '6'] := rfl
    simp [hsx]
  rw [verify_github_signature, if_neg hnil, if_neg h2,
    pySplit_append '=' _ _ hnm, pySplit_of_not_mem '=' _ hs]
  simp

theorem verify_eq_true_iff (secret : PyStr) (payload : Bytes) (hdr : PyStr) :
    verify_github_signature secret payload hdr = .ok true ↔
      secret ≠ [] ∧ hdr = goodHeader secret payload := by
  constructor
  · intro h
    by_cases h1 : hdr = []
    · rw [verify_github_signature, if_pos h1] at h; simp at h
    by_cases h2 : secret = []
    · rw [verify_github_signature, if_neg h1, if_pos h2] at h; simp at h
    refine ⟨h2, ?_⟩
    rw [verify_github_signature, if_neg h1, if_neg h2] at h
    cases hsp : pySplit '=' hdr with
    | nil => rw [hsp] at h; simp at h
    | cons a rest =>
      cases rest with
      | nil => rw [hsp] at h; simp at h
      | cons s rest2 =>
        cases rest2 with
        | cons x xs => rw [hsp] at h; simp at h
        | nil =>
          rw [hsp] at h
          have hred : (if a ≠ "sha256".toList then (Except.ok false : Except String Bool)
              else compare_digest (hmacHexStr secret payload) s) = .ok true := h
          by_cases ha : a = "sha256".toList
          · rw [if_neg (by simp [ha])] at hred
            by_cases hasc : isAscii s = true
            · rw [compare_digest_hex secret payload s hasc] at hred
              have hseq : hmacHexStr secret payload = s := by
                simpa using hred
              subst ha
              subst hseq
              rw [← joinSep_pySplit '=' hdr, hsp, goodHeader]
              rfl
            · have hf : isAscii s = false := by
                cases hx : isAscii s with
                | false => rfl
                | true => exact absurd hx hasc
              rw [compare_digest, hf] at hred
              simp at hred
          · rw [if_pos ha] at hred
            simp at hred
  · rintro ⟨h2, rfl⟩
    rw [goodHeader,
      verify_sha256_header secret payload _ h2 (eqsign_not_mem_hmacHexStr secret payload),
      compare_digest_hex secret payload _ (isAscii_hmacHexStr secret payload)]
    simp

theorem verify_goodHeader_true (secret : PyStr) (payload : Bytes)
    (h : secret ≠ []) :
    verify_github_signature secret payload (goodHeader secret payload) = .ok true :=
  (verify_eq_true_iff secret payload _).mpr ⟨h, rfl⟩

/-- Claim C4 fails as stated: verify_github_signature is not total.  The
mismatch comparison is an unguarded hmac.compare_digest, which raises
TypeError when the header's signature part contains a non-ASCII character;
at the concrete header sha256=ÿ the function throws instead of returning
false. -/
theorem verify_github_signature_typeerror_counterexample :
    verify_github_signature ['k'] [1, 2] ("sha256".toList ++ '=' :: ['ÿ'])
      = .error compareTypeErrorMsg
  ∧ ∀ b : Bool, verify_github_signature ['k'] [1, 2]
      ("sha256".toList ++ '=' :: ['ÿ']) ≠ .ok b := by
  refine ⟨rfl, ?_⟩
  intro b h
  rw [show verify_github_signature ['k'] [1, 2] ("sha256".toList ++ '=' :: ['ÿ'])
      = .error compareTypeErrorMsg from rfl] at h
  cases h

/-- Claim C4 (amended): for every configured secret and body the header made
of sha256= followed by the hex HMAC-SHA256 of the body verifies, and it is
the only header that verifies; a missing header, a header without an equals
separator, a wrong algorithm prefix, an unconfigured secret, and an ASCII
signature mismatch (in particular the correct signature of any body whose
digest differs) all return false without throwing; but a header whose
signature part contains a non-ASCII character makes the unguarded
hmac.compare_digest raise TypeError, so the function is not total and a
mismatch does not always return false. -/
theorem verify_github_signature_ascii_spec (secret : PyStr) (payload : Bytes) :
    (secret ≠ [] →
      verify_github_signature secret payload (goodHeader secret payload)
        = .ok true)
  ∧ (∀ header : PyStr,
      verify_github_signature secret payload header = .ok true ↔
        (secret ≠ [] ∧ header = goodHeader secret payload))
  ∧ (∀ payload2 : Bytes, hmacHexStr secret payload2 ≠ hmacHexStr secret payload →
      verify_github_signature secret payload2 (goodHeader secret payload)
        = .ok false)
  ∧ verify_github_signature secret payload [] = .ok false
  ∧ (∀ header : PyStr, '=' ∉ header → header ≠ [] →
      verify_github_signature secret payload header = .ok false)
  ∧ (∀ signature : PyStr, isAscii signature = true → '=' ∉ signature →
      signature ≠ hmacHexStr secret payload → secret ≠ [] →
      verify_github_signature secret payload
        ("sha256".toList ++ '=' :: signature) = .ok false)
  ∧ (∀ signature : PyStr, isAscii signature = false → '=' ∉ signature →
      secret ≠ [] →
      verify_github_signature secret payload
        ("sha256".toList ++ '=' :: signature)
        = .error compareTypeErrorMsg) := by
  refine ⟨verify_goodHeader_true secret payload,
    verify_eq_true_iff secret payload, ?_, rfl, ?_, ?_, ?_⟩
  · intro payload2 hne
    by_cases hsec : secret = []
    · subst hsec
      exact verify_nil_secret payload2 _
    · rw [goodHeader,
        verify_sha256_header secret payload2 _ hsec
          (eqsign_not_mem_hmacHexStr secret payload),
        compare_digest_hex secret payload2 _ (isAscii_hmacHexStr secret payload)]
      have : (hmacHexStr secret payload2 == hmacHexStr secret payload) = false := by
        simp [hne]
      rw [this]
  · intro header hnm hne2
    by_cases hsec : secret = []
    · subst hsec
      exact verify_nil_secret payload header
    · rw [verify_github_signature, if_neg hne2, if_neg hsec,
        pySplit_of_not_mem '=' _ hnm]
  · intro signature hasc hnm hne hsec
    rw [verify_sha256_header secret payload signature hsec hnm,
      compare_digest_hex secret payload signature hasc]
    have : (hmacHexStr secret payload == signature) = false := by
      simp
      exact fun e => hne e.symm
    rw [this]
  · intro signature hasc hnm hsec
    rw [verify_sha256_header secret payload signature hsec hnm,
      compare_digest, hasc]
    rfl

theorem verify_github_signature_ascii_spec_witness :
    verify_github_signature ['k'] [1, 2] (goodHeader ['k'] [1, 2]) = .ok true :=
  (verify_github_signature_ascii_spec ['k'] [1, 2]).1 (by decide)

/-! ### Data model: runner configuration, runners, HTTP responses, effects -/

/-- One entry of RUNNER_CONFIG.  Fields read through dict.get without a
default are optional (absent keys yield None in the Python code). -/
structure VMConfig where
  repo : Option String
  labels : Option (List String)
  vm_instance_name : Option String
  vm_instance_zone : Option String
  deriving DecidableEq

/-- Self-hosted runner as reported by the GitHub API. -/
structure SelfHostedRunner where
  name : String
  busy : Bool
  status : String
  deriving DecidableEq

/-- FastAPI HTTPException raised by a handler. -/
structure HTTPException where
  status_code : Nat
  detail : String
  deriving DecidableEq

/-- JSON dictionary returned by the handlers, with its possible keys. -/
structure JsonResp where
  status : String
  reason : Option String
  operation : Option String
  deriving DecidableEq

/-- Response acknowledging a webhook without further action. -/
def okResp : JsonResp := ⟨"ok", none, none⟩

/-- Outbound collaborator calls a handler performs, in order. -/
inductive Eff where
  | parseJson
  | computeGet (zone name : Option String)
  | computeStart (zone name : Option String)
  | computeStop (zone name : Option String)
  | busyCheck (cfg : VMConfig)
  | createTask (task_name : String)
  | cancelTask (task_name : String)
  | ensureStarted (cfg : VMConfig)
  | scheduleStop (cfg : VMConfig)
  deriving DecidableEq

/-- Truthiness of an optional string (Python treats None and "" as falsy). -/
def falsy : Option String → Bool
  | none => true
  | some s => s == ""

/-- Compute Engine instance view returned by compute_client.get. -/
structure ComputeInstance where
  status : String
  deriving DecidableEq

/-- JSON body of the start/stop control endpoints. -/
structure ReqBody where
  vm_instance_name : Option String
  vm_instance_zone : Option String
  deriving DecidableEq

/-- Parsed workflow_job webhook payload fields the handler reads. -/
structure WebhookPayload where
  action : Option String
  repo_full_name : Option String
  labels : List String
  deriving DecidableEq

/-! ### find_matching_vm -/

/-- Model of find_matching_vm from app.py: scan RUNNER_CONFIG in order,
skip entries whose repo differs or whose labels are not all present in the
job labels, and return the first surviving entry. -/
def find_matching_vm (runner_config : List VMConfig)
    (repo_full_name : Option String) (job_labels : List String) :
    Option VMConfig :=
  match runner_config with
  | [] => none
  | vm_config :: rest =>
    if vm_config.repo != repo_full_name then
      find_matching_vm rest repo_full_name job_labels
    else if !(vm_config.labels.getD []).all (fun label => job_labels.contains label) then
      find_matching_vm rest repo_full_name job_labels
    else some vm_config

/-- Match predicate of find_matching_vm, as a single boolean test. -/
def vmConfigMatches (repo_full_name : Option String) (job_labels : List String)
    (vm_config : VMConfig) : Bool :=
  vm_config.repo == repo_full_name &&
    (vm_config.labels.getD []).all (fun label => job_labels.contains label)

/-! ### check_runner_busy -/

/-- Model of check_runner_busy from app.py.  The whole GitHub interaction
(token, repository, runner listing) is one oracle; an error value stands for
any exception raised inside the try block. -/
def check_runner_busy (vm_config : VMConfig)
    (github_runners : Except String (List SelfHostedRunner)) : Bool :=
  match github_runners with
  | .error _ => false
  | .ok runners =>
    match runners.find? (fun r => some r.name == vm_config.vm_instance_name) with
    | some r => r.busy
    | none => false

/-! ### verify_runner_secret -/

/-- Model of verify_runner_secret from app.py. -/
def verify_runner_secret (runner_manager_secret : String)
    (secret_header : Option String) : Except HTTPException Bool :=
  if falsy secret_header then
    .error ⟨401, "Missing X-Runner-Secret header"⟩
  else if runner_manager_secret == "" then
    .error ⟨500, "Server configuration error"⟩
  else if !(runner_manager_secret == secret_header.getD "") then
    .error ⟨401, "Invalid secret"⟩
  else
    .ok true

/-! ### /runner/start and /runner/stop -/

/-- Detail string of the HTTP 500 produced by the start handler's blanket
exception handler. -/
def failDetailStart (e : String) : String := "Failed to start VM: " ++ e

/-- Detail string of the HTTP 500 produced by the stop handler's blanket
exception handler. -/
def failDetailStop (e : String) : String := "Failed to stop VM: " ++ e

/-- Detail of the HTTPException(400) raised when body fields are missing
(it is re-raised as a 500 by the blanket except clause). -/
def missingFieldsDetail : String :=
  "vm_instance_name and vm_instance_zone are required in request body"

/-- Model of the start_runner handler (POST /runner/start).  Oracles:
body_json is the JSON body parse, get_result the compute get call,
start_result the compute start call. -/
def start_runner (runner_manager_secret : String) (secret_header : Option String)
    (body_json : Except String ReqBody)
    (get_result : Except String ComputeInstance)
    (start_result : Except String String) :
    Except HTTPException JsonResp × List Eff :=
  match verify_runner_secret runner_manager_secret secret_header with
  | .error e => (.error e, [])
  | .ok _ =>
    match body_json with
    | .error e => (.error ⟨500, failDetailStart e⟩, [.parseJson])
    | .ok body =>
      if falsy body.vm_instance_name || falsy body.vm_instance_zone then
        (.error ⟨500, failDetailStart missingFieldsDetail⟩, [.parseJson])
      else
        match get_result with
        | .error e => (.error ⟨500, failDetailStart e⟩,
            [.parseJson, .computeGet body.vm_instance_zone body.vm_instance_name])
        | .ok inst =>
          if inst.status != "RUNNING" then
            match start_result with
            | .error e => (.error ⟨500, failDetailStart e⟩,
                [.parseJson, .computeGet body.vm_instance_zone body.vm_instance_name,
                 .computeStart body.vm_instance_zone body.vm_instance_name])
            | .ok operation =>
              (.ok ⟨"starting", none, some operation⟩,
                [.parseJson, .computeGet body.vm_instance_zone body.vm_instance_name,
                 .computeStart body.vm_instance_zone body.vm_instance_name])
          else
            (.ok ⟨"already_running", none, none⟩,
              [.parseJson, .computeGet body.vm_instance_zone body.vm_instance_name])

/-- Search of RUNNER_CONFIG for the entry naming this instance and zone
(the for-loop with break in stop_runner). -/
def lookup_vm_config (runner_config : List VMConfig)
    (vm_instance_name vm_instance_zone : Option String) : Option VMConfig :=
  runner_config.find? (fun config =>
    config.vm_instance_name == vm_instance_name &&
    config.vm_instance_zone == vm_instance_zone)

/-- Shared tail of the stop handler: get the instance and stop it when it is
running.  The effects performed so far are passed in and extended. -/
def stop_compute (body : ReqBody)
    (get_result : Except String ComputeInstance)
    (stop_result : Except String String) (effs : List Eff) :
    Except HTTPException JsonResp × List Eff :=
  match get_result with
  | .error e => (.error ⟨500, failDetailStop e⟩,
      effs ++ [.computeGet body.vm_instance_zone body.vm_instance_name])
  | .ok inst =>
    if inst.status == "RUNNING" then
      match stop_result with
      | .error e => (.error ⟨500, failDetailStop e⟩,
          effs ++ [.computeGet body.vm_instance_zone body.vm_instance_name,
                   .computeStop body.vm_instance_zone body.vm_instance_name])
      | .ok operation =>
        (.ok ⟨"stopping", none, some operation⟩,
          effs ++ [.computeGet body.vm_instance_zone body.vm_instance_name,
                   .computeStop body.vm_instance_zone body.vm_instance_name])
    else
      (.ok ⟨"already_stopped", none, none⟩,
        effs ++ [.computeGet body.vm_instance_zone body.vm_instance_name])

/-- Model of the stop_runner handler (POST /runner/stop). -/
def stop_runner (runner_manager_secret : String) (secret_header : Option String)
    (runner_config : List VMConfig)
    (body_json : Except String ReqBody)
    (github_runners : Except String (List SelfHostedRunner))
    (get_result : Except String ComputeInstance)
    (stop_result : Except String String) :
    Except HTTPException JsonResp × List Eff :=
  match verify_runner_secret runner_manager_secret secret_header with
  | .error e => (.error e, [])
  | .ok _ =>
    match body_json with
    | .error e => (.error ⟨500, failDetailStop e⟩, [.parseJson])
    | .ok body =>
      if falsy body.vm_instance_name || falsy body.vm_instance_zone then
        (.error ⟨500, failDetailStop missingFieldsDetail⟩, [.parseJson])
      else
        match lookup_vm_config runner_config body.vm_instance_name body.vm_instance_zone with
        | some vm_config =>
          if check_runner_busy vm_config github_runners then
            (.ok ⟨"skipped", some "runner_busy", none⟩,
              [.parseJson, .busyCheck vm_config])
          else
            stop_compute body get_result stop_result [.parseJson, .busyCheck vm_config]
        | none =>
          stop_compute body get_result stop_result [.parseJson]

/-! ### start_runner_if_needed and schedule_stop_task -/

/-- Model of start_runner_if_needed from app.py. -/
def start_runner_if_needed (vm_config : VMConfig)
    (get_result : Except String ComputeInstance)
    (start_result : Except String String) :
    Except HTTPException Unit × List Eff :=
  match get_result with
  | .error e => (.error ⟨500, failDetailStart e⟩,
      [.computeGet vm_config.vm_instance_zone vm_config.vm_instance_name])
  | .ok inst =>
    if inst.status != "RUNNING" then
      match start_result with
      | .error e => (.error ⟨500, failDetailStart e⟩,
          [.computeGet vm_config.vm_instance_zone vm_config.vm_instance_name,
           .computeStart vm_config.vm_instance_zone vm_config.vm_instance_name])
      | .ok _ =>
        (.ok (), [.computeGet vm_config.vm_instance_zone vm_config.vm_instance_name,
                  .computeStart vm_config.vm_instance_zone vm_config.vm_instance_name])
    else
      (.ok (), [.computeGet vm_config.vm_instance_zone vm_config.vm_instance_name])

/-- Name of the Cloud Task created for a delayed stop, exactly as the f-string
in schedule_stop_task builds it: it embeds the current Unix timestamp. -/
def stop_task_name (parent : String) (vm_instance_name : Option String)
    (timestamp : Nat) : String :=
  parent ++ "/tasks/stop-" ++ vm_instance_name.getD "None" ++ "-" ++ toString timestamp

/-- Model of schedule_stop_task from app.py: build the timestamped task name,
compute the schedule time, and create the task.  No cancellation of any
previously created task occurs anywhere in the function. -/
def schedule_stop_task (vm_config : VMConfig) (parent : String)
    (now : Nat) (vm_inactive_minutes : Nat)
    (create_result : Except String Unit) :
    Except HTTPException Nat × List Eff :=
  let task_name := stop_task_name parent vm_config.vm_instance_name now
  let schedule_time := now + 60 * vm_inactive_minutes
  match create_result with
  | .error e => (.error ⟨500, "Failed to schedule stop task: " ++ e⟩,
      [.createTask task_name])
  | .ok _ => (.ok schedule_time, [.createTask task_name])

/-! ### /github/webhook -/

/-- Model of the github_webhook handler (POST /github/webhook).  The raw body
bytes and signature header feed verify_github_signature; parse_result stands
for request.json(); the remaining oracles feed the two sub-operations.  An
exception escaping verify_github_signature (the TypeError of an unguarded
compare on a non-ASCII signature) is uncaught in the handler, so the
framework answers HTTP 500. -/
def github_webhook (runner_manager_secret : PyStr) (body : Bytes)
    (x_hub_signature_256 : PyStr) (x_github_event : Option String)
    (parse_result : Except String WebhookPayload)
    (runner_config : List VMConfig)
    (get_result : Except String ComputeInstance)
    (start_result : Except String String)
    (parent : String) (now : Nat) (vm_inactive_minutes : Nat)
    (create_result : Except String Unit) :
    Except HTTPException JsonResp × List Eff :=
  match verify_github_signature runner_manager_secret body x_hub_signature_256 with
  | .error e => (.error ⟨500, e⟩, [])
  | .ok false => (.error ⟨401, "Invalid signature"⟩, [])
  | .ok true =>
    match parse_result with
    | .error e => (.error ⟨500, e⟩, [.parseJson])
    | .ok payload =>
      if x_github_event != some "workflow_job" then (.ok okResp, [.parseJson])
      else
        match find_matching_vm runner_config payload.repo_full_name payload.labels with
        | none => (.ok okResp, [.parseJson])
        | some vm_config =>
          if payload.action == some "queued" then
            match start_runner_if_needed vm_config get_result start_result with
            | (.error e, effs) => (.error e, .parseJson :: .ensureStarted vm_config :: effs)
            | (.ok _, effs) => (.ok okResp, .parseJson :: .ensureStarted vm_config :: effs)
          else if payload.action == some "completed" then
            match schedule_stop_task vm_config parent now vm_inactive_minutes create_result with
            | (.error e, effs) => (.error e, .parseJson :: .scheduleStop vm_config :: effs)
            | (.ok _, effs) => (.ok okResp, .parseJson :: .scheduleStop vm_config :: effs)
          else (.ok okResp, [.parseJson])

/-! ### Cloud Tasks queue semantics -/

/-- Effect of one collaborator call on the external task queue: create
appends a task under its name, cancel removes the named task, everything
else leaves the queue unchanged. -/
def applyEff (queue : List String) (e : Eff) : List String :=
  match e with
  | .createTask n => queue ++ [n]
  | .cancelTask n => queue.erase n
  | _ => queue

/-- Queue state after a handler's effect trace runs against the scheduler. -/
def runEffs (queue : List String) (effs : List Eff) : List String :=
  effs.foldl applyEff queue

/-! ### Theorems about find_matching_vm (claim C5) -/

theorem bool_eq_of_true_iff {a b : Bool} (h : a = true ↔ b = true) : a = b := by
  cases a <;> cases b <;> simp_all

theorem find_matching_vm_eq_find? (runner_config : List VMConfig)
    (r : Option String) (ls : List String) :
    find_matching_vm runner_config r ls
      = runner_config.find? (vmConfigMatches r ls) := by
  induction runner_config with
  | nil => rfl
  | cons c rest ih =>
    cases h1 : (c.repo == r) with
    | false =>
      have hm : vmConfigMatches r ls c = false := by
        rw [vmConfigMatches, h1, Bool.false_and]
      have hb1 : (c.repo != r) = true := by simp [bne, h1]
      rw [List.find?_cons_of_neg _ (by simp [hm]), find_matching_vm, hb1]
      simpa using ih
    | true =>
      cases h2 : ((c.labels.getD []).all fun label => ls.contains label) with
      | false =>
        have hm : vmConfigMatches r ls c = false := by
          rw [vmConfigMatches, h1, Bool.true_and]; exact h2
        have hb1 : (c.repo != r) = false := by simp [bne, h1]
        have hb2 : (!(c.labels.getD []).all fun label => ls.contains label) = true := by
          rw [h2]; rfl
        rw [List.find?_cons_of_neg _ (by simp [hm]), find_matching_vm, hb1, hb2]
        simpa using ih
      | true =>
        have hm : vmConfigMatches r ls c = true := by
          rw [vmConfigMatches, h1, Bool.true_and]; exact h2
        have hb1 : (c.repo != r) = false := by simp [bne, h1]
        have hb2 : (!(c.labels.getD []).all fun label => ls.contains label) = false := by
          rw [h2]; rfl
        rw [List.find?_cons_of_pos _ hm, find_matching_vm, hb1, hb2]
        simp

theorem vmConfigMatches_iff (r : Option String) (ls : List String)
    (c : VMConfig) :
    vmConfigMatches r ls c = true ↔
      (c.repo = r ∧ ∀ label ∈ c.labels.getD [], label ∈ ls) := by
  simp [vmConfigMatches, List.all_eq_true]

/-- Claim C5: find_matching_vm is the in-order scan of the configured target
list returning the first entry whose repo equals the event repository exactly
and whose every configured label occurs among the job labels (extra job
labels ignored); it returns none when no entry matches, and its result
depends only on set membership of the job labels, not on their order or
multiplicity. -/
theorem find_matching_vm_spec (runner_config : List VMConfig)
    (repo_full_name : Option String) (job_labels : List String) :
    (find_matching_vm runner_config repo_full_name job_labels
      = runner_config.find? (vmConfigMatches repo_full_name job_labels))
  ∧ (∀ vm_config : VMConfig,
      vmConfigMatches repo_full_name job_labels vm_config = true ↔
        (vm_config.repo = repo_full_name ∧
          ∀ label ∈ vm_config.labels.getD [], label ∈ job_labels))
  ∧ (∀ job_labels2 : List String,
      (∀ label : String, label ∈ job_labels ↔ label ∈ job_labels2) →
        find_matching_vm runner_config repo_full_name job_labels
          = find_matching_vm runner_config repo_full_name job_labels2)
  ∧ ((∀ vm_config ∈ runner_config,
        vmConfigMatches repo_full_name job_labels vm_config = false) →
      find_matching_vm runner_config repo_full_name job_labels = none) := by
  refine ⟨find_matching_vm_eq_find? runner_config repo_full_name job_labels,
    vmConfigMatches_iff repo_full_name job_labels, ?_, ?_⟩
  · intro ls2 hiff
    rw [find_matching_vm_eq_find?, find_matching_vm_eq_find?]
    have hfun : vmConfigMatches repo_full_name job_labels
        = vmConfigMatches repo_full_name ls2 := by
      funext c
      refine bool_eq_of_true_iff ?_
      rw [vmConfigMatches_iff, vmConfigMatches_iff]
      constructor
      · rintro ⟨h1, h2⟩
        exact ⟨h1, fun label hl => (hiff label).mp (h2 label hl)⟩
      · rintro ⟨h1, h2⟩
        exact ⟨h1, fun label hl => (hiff label).mpr (h2 label hl)⟩
    rw [hfun]
  · intro hnone
    rw [find_matching_vm_eq_find?]
    exact List.find?_eq_none.mpr (fun c hc => by simp [hnone c hc])

theorem find_matching_vm_spec_witness :
    find_matching_vm [⟨some "a/b", some ["self-hosted"], some "vm", some "z"⟩]
        (some "a/b") ["self-hosted", "gpu"]
      = find_matching_vm [⟨some "a/b", some ["self-hosted"], some "vm", some "z"⟩]
        (some "a/b") ["gpu", "self-hosted", "gpu"] :=
  (find_matching_vm_spec [⟨some "a/b", some ["self-hosted"], some "vm", some "z"⟩]
      (some "a/b") ["self-hosted", "gpu"]).2.2.1
    ["gpu", "self-hosted", "gpu"]
    (by intro label; simp only [List.mem_cons, List.not_mem_nil, or_false]; tauto)

/-! ### Theorems about check_runner_busy (claim C3) -/

/-- Claim C3: every failure of the busy-status query makes check_runner_busy
return false, a listing without the target's runner also yields false, and a
failed check drives the stop handler exactly as a listing with no busy runner
does: the check is a total boolean function and never propagates an error. -/
theorem check_runner_busy_fail_open (vm_config : VMConfig) (e : String) :
    check_runner_busy vm_config (.error e) = false
  ∧ (∀ runners : List SelfHostedRunner,
      (∀ r ∈ runners, (some r.name == vm_config.vm_instance_name) = false) →
        check_runner_busy vm_config (.ok runners) = false)
  ∧ (∀ (rms : String) (hdr : Option String) (config : List VMConfig)
      (body_json : Except String ReqBody) (g : Except String ComputeInstance)
      (s : Except String String),
      stop_runner rms hdr config body_json (.error e) g s
        = stop_runner rms hdr config body_json (.ok []) g s) := by
  refine ⟨rfl, ?_, ?_⟩
  · intro runners h
    rw [check_runner_busy]
    rw [List.find?_eq_none.mpr (fun r hr => by simp [h r hr])]
  · intro rms hdr config body_json g s
    have hc : ∀ c : VMConfig,
        check_runner_busy c (.error e)
          = check_runner_busy c (.ok ([] : List SelfHostedRunner)) :=
      fun c => rfl
    simp only [stop_runner, hc]

theorem check_runner_busy_fail_open_witness :
    check_runner_busy ⟨some "a/b", none, some "vm", none⟩
      (.ok [⟨"other", true, "online"⟩]) = false :=
  (check_runner_busy_fail_open ⟨some "a/b", none, some "vm", none⟩ "boom").2.1
    [⟨"other", true, "online"⟩] (by decide)

/-! ### Theorems about the stop busy gate (claim C2) -/

/-- Claim C2: when the stop handler serves a request for a configured target,
the compute stop call is made only if check_runner_busy returned false (which
covers a failed check); when the check returns busy the handler performs no
compute call and answers that the stop was skipped because the runner is
busy. -/
theorem stop_runner_busy_gate (rms : String) (hdr : Option String)
    (config : List VMConfig) (body : ReqBody)
    (gh : Except String (List SelfHostedRunner))
    (g : Except String ComputeInstance) (s : Except String String)
    (vm_config : VMConfig)
    (hauth : verify_runner_secret rms hdr = .ok true)
    (hfields : (falsy body.vm_instance_name || falsy body.vm_instance_zone) = false)
    (hlook : lookup_vm_config config body.vm_instance_name body.vm_instance_zone
      = some vm_config) :
    (check_runner_busy vm_config gh = true →
      stop_runner rms hdr config (.ok body) gh g s
        = (.ok ⟨"skipped", some "runner_busy", none⟩,
           [.parseJson, .busyCheck vm_config]))
  ∧ (∀ zone name : Option String,
      Eff.computeStop zone name ∈ (stop_runner rms hdr config (.ok body) gh g s).2 →
        check_runner_busy vm_config gh = false) := by
  constructor
  · intro hbusy
    simp only [stop_runner, hauth, hfields, hlook, hbusy, Bool.false_eq_true,
      if_false, if_true]
  · intro zone name hmem
    cases hbusy : check_runner_busy vm_config gh with
    | false => rfl
    | true =>
      simp only [stop_runner, hauth, hfields, hlook, hbusy, Bool.false_eq_true,
        if_false, if_true] at hmem
      simp at hmem

theorem stop_runner_busy_gate_witness :
    stop_runner "s" (some "s") [⟨some "a/b", none, some "vm", some "z"⟩]
      (.ok ⟨some "vm", some "z"⟩) (.ok [⟨"vm", true, "online"⟩])
      (.error "x") (.error "x")
      = (.ok ⟨"skipped", some "runner_busy", none⟩,
         [.parseJson, .busyCheck ⟨some "a/b", none, some "vm", some "z"⟩]) :=
  (stop_runner_busy_gate "s" (some "s") [⟨some "a/b", none, some "vm", some "z"⟩]
    ⟨some "vm", some "z"⟩ (.ok [⟨"vm", true, "online"⟩]) (.error "x") (.error "x")
    ⟨some "a/b", none, some "vm", some "z"⟩
    (by rfl) (by decide) (by decide)).1 (by decide)

/-! ### Theorems about endpoint idempotency (claim C9) -/

/-- Claim C9 fails as stated in one detail: a busy-gated stop answers with
reason runner_busy, not reason busy.  Concretely, an authenticated stop for a
configured target whose runner reports busy yields status skipped and reason
runner_busy, which differs from the reason the claim names. -/
theorem stop_skipped_reason_counterexample :
    ((stop_runner "s" (some "s") [⟨some "a/b", none, some "vm", some "z"⟩]
        (.ok ⟨some "vm", some "z"⟩) (.ok [⟨"vm", true, "online"⟩])
        (.error "x") (.error "x")).1
      = .ok ⟨"skipped", some "runner_busy", none⟩)
  ∧ (some "runner_busy" : Option String) ≠ some "busy" := by
  constructor
  · rfl
  · decide

/-- Claim C9 (amended): the endpoints are idempotent: an authenticated start
on a RUNNING instance makes no compute start call and answers already_running;
an authenticated stop passing the busy gate on a non-RUNNING instance makes
no compute stop call and answers already_stopped; otherwise they answer
starting and stopping with the operation name; and a busy-gated stop answers
status skipped with reason runner_busy (the code's literal; the claim said
busy). -/
theorem runner_endpoints_idempotent (rms : String) (hdr : Option String)
    (config : List VMConfig) (body : ReqBody)
    (gh : Except String (List SelfHostedRunner))
    (s : Except String String) (op st : String)
    (hauth : verify_runner_secret rms hdr = .ok true)
    (hfields : (falsy body.vm_instance_name || falsy body.vm_instance_zone) = false) :
    (start_runner rms hdr (.ok body) (.ok ⟨"RUNNING"⟩) s
      = (.ok ⟨"already_running", none, none⟩,
         [.parseJson, .computeGet body.vm_instance_zone body.vm_instance_name]))
  ∧ (st ≠ "RUNNING" → start_runner rms hdr (.ok body) (.ok ⟨st⟩) (.ok op)
      = (.ok ⟨"starting", none, some op⟩,
         [.parseJson, .computeGet body.vm_instance_zone body.vm_instance_name,
          .computeStart body.vm_instance_zone body.vm_instance_name]))
  ∧ ((∀ c, lookup_vm_config config body.vm_instance_name body.vm_instance_zone
        = some c → check_runner_busy c gh = false) →
      st ≠ "RUNNING" →
        (stop_runner rms hdr config (.ok body) gh (.ok ⟨st⟩) s).1
          = .ok ⟨"already_stopped", none, none⟩
      ∧ ∀ zone name : Option String,
          Eff.computeStop zone name ∉
            (stop_runner rms hdr config (.ok body) gh (.ok ⟨st⟩) s).2)
  ∧ ((∀ c, lookup_vm_config config body.vm_instance_name body.vm_instance_zone
        = some c → check_runner_busy c gh = false) →
      (stop_runner rms hdr config (.ok body) gh (.ok ⟨"RUNNING"⟩) (.ok op)).1
        = .ok ⟨"stopping", none, some op⟩)
  ∧ (∀ c, lookup_vm_config config body.vm_instance_name body.vm_instance_zone
        = some c → check_runner_busy c gh = true →
      (stop_runner rms hdr config (.ok body) gh (.ok ⟨st⟩) s).1
        = .ok ⟨"skipped", some "runner_busy", none⟩) := by
  refine ⟨?_, ?_, ?_, ?_, ?_⟩
  · simp only [start_runner, hauth, hfields, Bool.false_eq_true, if_false]
    simp
  · intro hst
    simp only [start_runner, hauth, hfields, Bool.false_eq_true, if_false]
    simp [bne, hst]
  · intro hidle hst
    cases hlook : lookup_vm_config config body.vm_instance_name body.vm_instance_zone with
    | none =>
      simp only [stop_runner, hauth, hfields, Bool.false_eq_true, if_false, hlook]
      constructor
      · simp [stop_compute, hst]
      · intro zone name
        simp [stop_compute, hst]
    | some c =>
      simp only [stop_runner, hauth, hfields, Bool.false_eq_true, if_false, hlook,
        hidle c hlook]
      constructor
      · simp [stop_compute, hst]
      · intro zone name
        simp [stop_compute, hst]
  · intro hidle
    cases hlook : lookup_vm_config config body.vm_instance_name body.vm_instance_zone with
    | none =>
      simp only [stop_runner, hauth, hfields, Bool.false_eq_true, if_false, hlook]
      simp [stop_compute]
    | some c =>
      simp only [stop_runner, hauth, hfields, Bool.false_eq_true, if_false, hlook,
        hidle c hlook]
      simp [stop_compute]
  · intro c hlook hbusy
    simp only [stop_runner, hauth, hfields, Bool.false_eq_true, if_false, hlook,
      hbusy, if_true]

theorem runner_endpoints_idempotent_witness :
    start_runner "s" (some "s") (.ok ⟨some "vm", some "z"⟩)
      (.ok ⟨"RUNNING"⟩) (.error "x")
      = (.ok ⟨"already_running", none, none⟩,
         [.parseJson, .computeGet (some "z") (some "vm")]) :=
  (runner_endpoints_idempotent "s" (some "s") [] ⟨some "vm", some "z"⟩
    (.error "e") (.error "x") "op" "TERMINATED" (by rfl) (by decide)).1

/-! ### Theorems about required body fields (claims C8) -/

/-- Claim C8 fails as stated: an authenticated start request whose body lacks
vm_instance_name and vm_instance_zone does not succeed against the configured
target; the handler raises HTTPException(400) inside its try block, the
blanket except clause re-raises it as HTTP 500, and no compute call is made. -/
theorem runner_endpoints_require_fields_counterexample :
    start_runner "s" (some "s") (.ok ⟨none, none⟩) (.ok ⟨"RUNNING"⟩) (.ok "op")
      = (.error ⟨500, failDetailStart missingFieldsDetail⟩, [.parseJson]) := rfl

/-- Claim C8 (amended): both control endpoints require vm_instance_name and
vm_instance_zone in the request body in every deployment; an authenticated
request in which either field is absent or empty fails with HTTP 500 (the
internal HTTPException(400) is converted by the blanket except clause) and no
compute call is made; there is no fallback to a configured single target. -/
theorem runner_endpoints_require_fields (rms : String) (hdr : Option String)
    (config : List VMConfig) (body : ReqBody)
    (gh : Except String (List SelfHostedRunner))
    (g : Except String ComputeInstance) (s : Except String String)
    (hauth : verify_runner_secret rms hdr = .ok true)
    (hfields : (falsy body.vm_instance_name || falsy body.vm_instance_zone) = true) :
    start_runner rms hdr (.ok body) g s
      = (.error ⟨500, failDetailStart missingFieldsDetail⟩, [.parseJson])
  ∧ stop_runner rms hdr config (.ok body) gh g s
      = (.error ⟨500, failDetailStop missingFieldsDetail⟩, [.parseJson]) := by
  constructor
  · simp only [start_runner, hauth, hfields, if_true]
  · simp only [stop_runner, hauth, hfields, if_true]

theorem runner_endpoints_require_fields_witness :
    stop_runner "s" (some "s") [] (.ok ⟨some "vm", none⟩) (.error "e")
      (.ok ⟨"RUNNING"⟩) (.ok "op")
      = (.error ⟨500, failDetailStop missingFieldsDetail⟩, [.parseJson]) :=
  (runner_endpoints_require_fields "s" (some "s") [] ⟨some "vm", none⟩
    (.error "e") (.ok ⟨"RUNNING"⟩) (.ok "op") (by rfl) (by decide)).2

/-! ### Theorems about stopping unconfigured targets (claim C10) -/

/-- Claim C10: an authenticated stop request whose name and zone match no
RUNNER_CONFIG entry skips the busy check entirely: no GitHub status query is
made, and the handler proceeds directly to stop the instance when it is
running, so an unconfigured VM is stopped without busy-gate protection. -/
theorem stop_runner_unconfigured_no_busy_check (rms : String)
    (hdr : Option String) (config : List VMConfig) (body : ReqBody)
    (gh : Except String (List SelfHostedRunner))
    (g : Except String ComputeInstance) (s : Except String String) (op : String)
    (hauth : verify_runner_secret rms hdr = .ok true)
    (hfields : (falsy body.vm_instance_name || falsy body.vm_instance_zone) = false)
    (hlook : lookup_vm_config config body.vm_instance_name body.vm_instance_zone
      = none) :
    (∀ c : VMConfig,
      Eff.busyCheck c ∉ (stop_runner rms hdr config (.ok body) gh g s).2)
  ∧ (stop_runner rms hdr config (.ok body) gh (.ok ⟨"RUNNING"⟩) (.ok op)
      = (.ok ⟨"stopping", none, some op⟩,
         [.parseJson, .computeGet body.vm_instance_zone body.vm_instance_name,
          .computeStop body.vm_instance_zone body.vm_instance_name])) := by
  constructor
  · intro c
    simp only [stop_runner, hauth, hfields, Bool.false_eq_true, if_false, hlook]
    cases g with
    | error e => simp [stop_compute]
    | ok inst =>
      by_cases hst : inst.status == "RUNNING"
      · cases s with
        | error e => simp [stop_compute, hst]
        | ok o => simp [stop_compute, hst]
      · simp [stop_compute, hst]
  · simp only [stop_runner, hauth, hfields, Bool.false_eq_true, if_false, hlook]
    simp [stop_compute]

theorem stop_runner_unconfigured_no_busy_check_witness :
    stop_runner "s" (some "s") [⟨some "a/b", none, some "vm", some "z"⟩]
      (.ok ⟨some "other", some "z"⟩) (.error "e") (.ok ⟨"RUNNING"⟩) (.ok "op")
      = (.ok ⟨"stopping", none, some "op"⟩,
         [.parseJson, .computeGet (some "z") (some "other"),
          .computeStop (some "z") (some "other")]) :=
  (stop_runner_unconfigured_no_busy_check "s" (some "s")
    [⟨some "a/b", none, some "vm", some "z"⟩] ⟨some "other", some "z"⟩
    (.error "e") (.error "e") (.error "e") "op"
    (by rfl) (by decide) (by decide)).2

/-! ### Theorems about schedule_stop_task (claim C1) -/

/-- Claim C1 fails on the code: schedule_stop_task derives the Cloud Task
name from the current timestamp, so the key is unique per event rather than
deterministic per target, and the function never cancels a previously created
task; two consecutive calls for the same target at distinct timestamps leave
two live scheduled stops in the queue, not one. -/
theorem schedule_stop_accumulates_counterexample :
    (runEffs (runEffs []
        (schedule_stop_task ⟨some "a/b", none, some "vm", some "z"⟩
          "q" 100 3 (.ok ())).2)
        (schedule_stop_task ⟨some "a/b", none, some "vm", some "z"⟩
          "q" 160 3 (.ok ())).2).length = 2
  ∧ stop_task_name "q" (some "vm") 100 ≠ stop_task_name "q" (some "vm") 160
  ∧ (runEffs []
      (schedule_stop_task ⟨some "a/b", none, some "vm", some "z"⟩
        "q" 100 3 (.ok ())).2).length = 1 := by
  refine ⟨rfl, ?_, rfl⟩
  decide

/-- Claim C1 (amended): the scheduled-stop task name is deterministic in the
target name and the event timestamp, hence unique per event rather than per
target; schedule_stop_task performs no cancellation at all, and two
consecutive calls for the same target whose timestamps render differently
append two distinct live tasks to the queue instead of replacing one. -/
theorem schedule_stop_task_per_event (vm_config : VMConfig) (parent : String)
    (t1 t2 mins1 mins2 : Nat) (r1 r2 : Except String Unit) (queue : List String)
    (hne : toString t1 ≠ toString t2) :
    (schedule_stop_task vm_config parent t1 mins1 r1).2
        = [.createTask (stop_task_name parent vm_config.vm_instance_name t1)]
  ∧ (∀ n : String,
      Eff.cancelTask n ∉ (schedule_stop_task vm_config parent t1 mins1 r1).2)
  ∧ stop_task_name parent vm_config.vm_instance_name t1
      ≠ stop_task_name parent vm_config.vm_instance_name t2
  ∧ runEffs (runEffs queue (schedule_stop_task vm_config parent t1 mins1 r1).2)
        (schedule_stop_task vm_config parent t2 mins2 r2).2
      = queue ++ [stop_task_name parent vm_config.vm_instance_name t1,
                  stop_task_name parent vm_config.vm_instance_name t2] := by
  refine ⟨?_, ?_, ?_, ?_⟩
  · cases r1 <;> rfl
  · intro n hmem
    cases r1 <;> simp [schedule_stop_task] at hmem
  · intro he
    apply hne
    have hd := congrArg String.data he
    rw [stop_task_name, stop_task_name] at hd
    simp only [String.data_append] at hd
    have := List.append_cancel_left hd
    exact String.ext this
  · cases r1 <;> cases r2 <;>
      simp [schedule_stop_task, runEffs, applyEff, List.append_assoc]

theorem schedule_stop_task_per_event_witness :
    runEffs (runEffs []
        (schedule_stop_task ⟨some "a/b", none, some "vm", some "z"⟩
          "q" 100 3 (.ok ())).2)
        (schedule_stop_task ⟨some "a/b", none, some "vm", some "z"⟩
          "q" 160 3 (.ok ())).2
      = [] ++ [stop_task_name "q" (some "vm") 100,
               stop_task_name "q" (some "vm") 160] :=
  (schedule_stop_task_per_event ⟨some "a/b", none, some "vm", some "z"⟩
    "q" 100 160 3 3 (.ok ()) (.ok ()) [] (by decide)).2.2.2

/-! ### Theorems about the webhook dispatcher (claims C6 and C7) -/

/-- Claim C6: for an authenticated workflow_job event, a queued action on a
job matching a configured target invokes the idempotent ensure-started
operation, a completed action invokes the delayed stop scheduling, and an
event that matches no configured target or whose action is neither queued nor
completed is acknowledged with status ok and produces no compute or
scheduling side effect. -/
theorem github_webhook_dispatch (rms : PyStr) (body : Bytes) (sig : PyStr)
    (payload : WebhookPayload) (config : List VMConfig)
    (g : Except String ComputeInstance) (s : Except String String)
    (parent : String) (now mins : Nat) (cr : Except String Unit)
    (hsig : verify_github_signature rms body sig = .ok true) :
    (∀ vm_config : VMConfig,
      find_matching_vm config payload.repo_full_name payload.labels = some vm_config →
      payload.action = some "queued" →
        (github_webhook rms body sig (some "workflow_job") (.ok payload) config
            g s parent now mins cr).2
          = .parseJson :: .ensureStarted vm_config
              :: (start_runner_if_needed vm_config g s).2)
  ∧ (∀ vm_config : VMConfig,
      find_matching_vm config payload.repo_full_name payload.labels = some vm_config →
      payload.action = some "completed" →
        (github_webhook rms body sig (some "workflow_job") (.ok payload) config
            g s parent now mins cr).2
          = .parseJson :: .scheduleStop vm_config
              :: (schedule_stop_task vm_config parent now mins cr).2)
  ∧ (find_matching_vm config payload.repo_full_name payload.labels = none →
      github_webhook rms body sig (some "workflow_job") (.ok payload) config
          g s parent now mins cr
        = (.ok okResp, [.parseJson]))
  ∧ (∀ vm_config : VMConfig,
      find_matching_vm config payload.repo_full_name payload.labels = some vm_config →
      payload.action ≠ some "queued" → payload.action ≠ some "completed" →
        github_webhook rms body sig (some "workflow_job") (.ok payload) config
            g s parent now mins cr
          = (.ok okResp, [.parseJson])) := by
  refine ⟨?_, ?_, ?_, ?_⟩
  · intro vm_config hfind haction
    simp only [github_webhook, hsig, Bool.not_true, Bool.false_eq_true, if_false,
      bne_self_eq_false, hfind, haction]
    rcases hs : start_runner_if_needed vm_config g s with ⟨r, effs⟩
    cases r <;> simp
  · intro vm_config hfind haction
    simp only [github_webhook, hsig, Bool.not_true, Bool.false_eq_true, if_false,
      bne_self_eq_false, hfind, haction]
    rcases hs : schedule_stop_task vm_config parent now mins cr with ⟨r, effs⟩
    cases r <;> simp [hs]
  · intro hfind
    simp only [github_webhook, hsig, Bool.not_true, Bool.false_eq_true, if_false,
      bne_self_eq_false, hfind]
  · intro vm_config hfind h1 h2
    have hb1 : (payload.action == some "queued") = false := by
      simp [h1]
    have hb2 : (payload.action == some "completed") = false := by
      simp [h2]
    simp only [github_webhook, hsig, Bool.not_true, Bool.false_eq_true, if_false,
      bne_self_eq_false, hfind, hb1, hb2]

theorem github_webhook_dispatch_witness :
    github_webhook ['k'] [7] (goodHeader ['k'] [7]) (some "workflow_job")
      (.ok ⟨some "push", some "a/b", ["self-hosted"]⟩) [] (.error "x")
      (.error "x") "q" 0 3 (.ok ())
      = (.ok okResp, [.parseJson]) :=
  (github_webhook_dispatch ['k'] [7] (goodHeader ['k'] [7])
    ⟨some "push", some "a/b", ["self-hosted"]⟩ [] (.error "x") (.error "x")
    "q" 0 3 (.ok ())
    (verify_goodHeader_true ['k'] [7] (by decide))).2.2.1 rfl

/-- Claim C7 fails as stated: a delivery whose header is sha256=ÿ does not
verify, yet the endpoint answers HTTP 500, not 401, because the unguarded
hmac.compare_digest raises TypeError on the non-ASCII signature part and the
handler has no try around the verification; no collaborator call is made. -/
theorem github_webhook_500_counterexample :
    github_webhook ['k'] [7] ("sha256".toList ++ '=' :: ['ÿ'])
      (some "workflow_job") (.error "unparsed") [] (.error "x") (.error "x")
      "q" 0 3 (.ok ())
      = (.error ⟨500, compareTypeErrorMsg⟩, [])
  ∧ (500 : Nat) ≠ 401 := by
  exact ⟨rfl, by decide⟩

/-- Claim C7 (amended): a webhook delivery whose signature header is absent
or fails verification without throwing is answered HTTP 401; a header whose
signature part contains a non-ASCII character makes the verification raise
TypeError, and the endpoint answers HTTP 500; in either case the handler
performs no collaborator call at all: the payload is not parsed and no
compute or task operation happens. -/
theorem github_webhook_unauthenticated (rms : PyStr) (body : Bytes)
    (sig : PyStr) (event : Option String)
    (parse_result : Except String WebhookPayload) (config : List VMConfig)
    (g : Except String ComputeInstance) (s : Except String String)
    (parent : String) (now mins : Nat) (cr : Except String Unit) :
    (verify_github_signature rms body sig = .ok false →
      github_webhook rms body sig event parse_result config g s parent now mins cr
        = (.error ⟨401, "Invalid signature"⟩, []))
  ∧ (∀ e : String, verify_github_signature rms body sig = .error e →
      github_webhook rms body sig event parse_result config g s parent now mins cr
        = (.error ⟨500, e⟩, [])) := by
  constructor
  · intro hsig
    simp only [github_webhook, hsig]
  · intro e hsig
    simp only [github_webhook, hsig]

theorem github_webhook_unauthenticated_witness :
    github_webhook ['k'] [7] [] (some "workflow_job") (.error "unparsed") []
      (.error "x") (.error "x") "q" 0 3 (.ok ())
      = (.error ⟨401, "Invalid signature"⟩, []) :=
  (github_webhook_unauthenticated ['k'] [7] [] (some "workflow_job")
    (.error "unparsed") [] (.error "x") (.error "x") "q" 0 3 (.ok ())).1 (by rfl)

end RunnerManager
